import Mathlib

/-!
Verification of `exercises/code/python/05_complex_types.py`.

The script is straight-line Python driving an external dataframe engine
(Spark).  We embed it as follows:

* `StrExpr` — string expressions over the three environment variables
  (`S3_ROOT`, `S3_HOME`, `CONNECTION_NAME`) imported from `env`;
* `Col`     — column expressions, one constructor per engine function or
  accessor the script uses (names kept from the source);
* `DF`      — dataframe expressions: a CSV read, `withColumn`, `select`.
  Python binds dataframes to names (`drivers`, `drivers_array`, …); since
  a binding's right-hand side is evaluated once and the bound value is
  immutable, we inline each bound value as a Lean definition of the same
  name;
* `Stmt`    — the effectful statements of the script, in source order,
  collected in `script`.  (`Stmt.write` exists so that "the script never
  persists anything" is a statement about the script, not about the type:
  the engine offers `df.write`, the script never calls it.)

On top of the transcription we give
* an abstract evaluator `evalDF` / `displayOutputs`, parametric in the
  contents assigned to each CSV path, used for the data-flow
  (noninterference) claim; and
* a fallible executor `exec`: the Python module has no `try`/`except`, so
  an exception raised at any statement aborts the remainder of the module;
  `exec` is that semantics, parametrised by which statement indices raise.
-/

/-- The environment variables imported from `env` (source line 38). -/
inductive EnvVar where
  | s3Root : EnvVar
  | s3Home : EnvVar
  | connectionName : EnvVar
deriving DecidableEq, Repr

/-- String expressions appearing in the script: literals, environment
variables, and Python `+` concatenation. -/
inductive StrExpr where
  | lit : String → StrExpr
  | env : EnvVar → StrExpr
  | append : StrExpr → StrExpr → StrExpr
deriving DecidableEq, Repr

/-- A concrete assignment of values to the environment variables. -/
structure Env where
  s3Root : String
  s3Home : String
  connectionName : String

/-- Value of an environment variable under a concrete environment. -/
def EnvVar.valueIn (e : Env) : EnvVar → String
  | .s3Root => e.s3Root
  | .s3Home => e.s3Home
  | .connectionName => e.connectionName

/-- Evaluate a string expression under a concrete environment. -/
def evalStr (e : Env) : StrExpr → String
  | .lit s => s
  | .env v => v.valueIn e
  | .append a b => evalStr e a ++ evalStr e b

/-- Environment variables occurring in a string expression. -/
def strEnvVars : StrExpr → List EnvVar
  | .lit _ => []
  | .env v => [v]
  | .append a b => strEnvVars a ++ strEnvVars b

/-- Column expressions.  Each constructor is one engine function or
accessor used by the script, with the arity of its call sites:
`named` is a bare column-name string, `col`/`lit` the functions of those
names, `getItem` is `column[i]`, `getField` is `column.field`, `alias`
is `.alias(...)` (called with one or two names). -/
inductive Col where
  | named : String → Col
  | col : String → Col
  | lit : String → Col
  | array : Col → Col → Col
  | create_map : Col → Col → Col → Col → Col
  | struct : Col → Col → Col
  | getItem : Col → Nat → Col
  | getField : Col → String → Col
  | size : Col → Col
  | sort_array : Col → Bool → Col
  | array_contains : Col → String → Col
  | explode : Col → Col
  | posexplode : Col → Col
  | to_json : Col → Col
  | alias : Col → List String → Col
deriving DecidableEq, Repr

/-- Dataframe expressions: a CSV read (path, `header`, `inferSchema`),
`withColumn`, and `select`. -/
inductive DF where
  | readCsv : StrExpr → Bool → Bool → DF
  | withColumn : DF → String → Col → DF
  | select : DF → List Col → DF
deriving DecidableEq, Repr

/-- The effectful statements of the script.  `assign` records a Python
binding of a dataframe to a name; `showRows df n t` is `df.show(n, t)`;
`headRows df n` is `df.head(n)`; `write` is dataframe persistence, which
the engine offers and the script never uses. -/
inductive Stmt where
  | getConnection : StrExpr → Stmt
  | getSparkSession : Stmt
  | assign : String → DF → Stmt
  | printSchema : DF → Stmt
  | showRows : DF → Nat → Bool → Stmt
  | headRows : DF → Nat → Stmt
  | write : DF → String → Stmt
  | stop : Stmt
deriving DecidableEq, Repr

/-! ### Transcription of the script -/

/-- Path argument of the `rides` read: `S3_ROOT + "/duocar/raw/rides/"`. -/
def ridesPathExpr : StrExpr := .append (.env .s3Root) (.lit "/duocar/raw/rides/")

/-- Path argument of the `drivers` read: `S3_ROOT + "/duocar/raw/drivers/"`. -/
def driversPathExpr : StrExpr := .append (.env .s3Root) (.lit "/duocar/raw/drivers/")

/-- Path argument of the `riders` read: `S3_ROOT + "/duocar/raw/riders/"`. -/
def ridersPathExpr : StrExpr := .append (.env .s3Root) (.lit "/duocar/raw/riders/")

/-- `rides = spark.read.csv(S3_ROOT + "/duocar/raw/rides/", header=True, inferSchema=True)` -/
def rides : DF := .readCsv ridesPathExpr true true

/-- `drivers = spark.read.csv(S3_ROOT + "/duocar/raw/drivers/", header=True, inferSchema=True)` -/
def drivers : DF := .readCsv driversPathExpr true true

/-- `riders = spark.read.csv(S3_ROOT + "/duocar/raw/riders/", header=True, inferSchema=True)` -/
def riders : DF := .readCsv ridersPathExpr true true

/-- `drivers_array`: `drivers.withColumn("vehicle_array",
array("vehicle_make", "vehicle_model")).select("vehicle_make",
"vehicle_model", "vehicle_array")` (source lines 55–57). -/
def drivers_array : DF :=
  .select (.withColumn drivers "vehicle_array"
      (.array (.named "vehicle_make") (.named "vehicle_model")))
    [.named "vehicle_make", .named "vehicle_model", .named "vehicle_array"]

/-- `drivers_map`: `drivers.withColumn("vehicle_map",
create_map(lit("make"), "vehicle_make", lit("model"),
"vehicle_model")).select("vehicle_make", "vehicle_model", "vehicle_map")`
(source lines 110–112). -/
def drivers_map : DF :=
  .select (.withColumn drivers "vehicle_map"
      (.create_map (.lit "make") (.named "vehicle_make")
        (.lit "model") (.named "vehicle_model")))
    [.named "vehicle_make", .named "vehicle_model", .named "vehicle_map"]

/-- `drivers_struct`: `drivers.withColumn("vehicle_struct",
struct(col("vehicle_make").alias("make"),
col("vehicle_model").alias("model"))).select("vehicle_make",
"vehicle_model", "vehicle_struct")` (source lines 133–135). -/
def drivers_struct : DF :=
  .select (.withColumn drivers "vehicle_struct"
      (.struct (.alias (.col "vehicle_make") ["make"])
        (.alias (.col "vehicle_model") ["model"])))
    [.named "vehicle_make", .named "vehicle_model", .named "vehicle_struct"]

/-- The statements of the script, in source order.  `import` lines bind
names without calling the engine and are not statements here; the set of
names imported from `env` is recorded separately in `importedEnvVars`. -/
def script : List Stmt :=
  [ -- conn = cmldata.get_connection(CONNECTION_NAME)
    .getConnection (.env .connectionName),
    -- spark = conn.get_spark_session()
    .getSparkSession,
    -- the three CSV reads (source lines 44–46)
    .assign "rides" rides,
    .assign "drivers" drivers,
    .assign "riders" riders,
    -- ## Arrays (source lines 55–101)
    .assign "drivers_array" drivers_array,
    .printSchema drivers_array,
    .showRows drivers_array 5 false,
    .showRows (.select drivers_array
      [.named "vehicle_array", .getItem (.col "vehicle_array") 0]) 5 false,
    .showRows (.select drivers_array
      [.named "vehicle_array", .size (.named "vehicle_array")]) 5 false,
    .showRows (.select drivers_array
      [.named "vehicle_array", .sort_array (.named "vehicle_array") true]) 5 false,
    .showRows (.select drivers_array
      [.named "vehicle_array", .array_contains (.named "vehicle_array") "Subaru"]) 5 false,
    .showRows (.select drivers_array
      [.named "vehicle_array", .explode (.named "vehicle_array")]) 5 false,
    .showRows (.select drivers_array
      [.named "vehicle_array", .posexplode (.named "vehicle_array")]) 5 false,
    .showRows (.select drivers_array
      [.named "vehicle_array",
        .alias (.posexplode (.named "vehicle_array")) ["position", "column"]]) 5 false,
    -- ## Maps (source lines 110–124)
    .assign "drivers_map" drivers_map,
    .printSchema drivers_map,
    .showRows drivers_map 5 false,
    .showRows (.select drivers_map
      [.named "vehicle_map", .getField (.col "vehicle_map") "make"]) 5 false,
    .showRows (.select drivers_map
      [.named "vehicle_map", .size (.named "vehicle_map")]) 5 false,
    .showRows (.select drivers_map
      [.named "vehicle_map", .explode (.named "vehicle_map")]) 5 false,
    .showRows (.select drivers_map
      [.named "vehicle_map", .posexplode (.named "vehicle_map")]) 5 false,
    -- ## Structs (source lines 133–151)
    .assign "drivers_struct" drivers_struct,
    .printSchema drivers_struct,
    .showRows drivers_struct 5 false,
    .headRows drivers_struct 5,
    .showRows (.select drivers_struct
      [.named "vehicle_struct", .getField (.col "vehicle_struct") "make"]) 5 false,
    .showRows (.select drivers_struct
      [.named "vehicle_struct", .to_json (.named "vehicle_struct")]) 5 false,
    -- spark.stop()
    .stop ]

/-- The names imported from `env` on source line 38:
`from env import S3_ROOT, S3_HOME, CONNECTION_NAME`. -/
def importedEnvVars : List EnvVar := [.s3Root, .s3Home, .connectionName]

/-! ### Phases and section shapes (control flow) -/

/-- The session-acquisition statements (source lines 40–41). -/
def connectStmts : List Stmt :=
  [.getConnection (.env .connectionName), .getSparkSession]

/-- The three CSV-loading statements (source lines 44–46). -/
def loadStmts : List Stmt :=
  [.assign "rides" rides, .assign "drivers" drivers, .assign "riders" riders]

/-- The statements of the `## Arrays` section (source lines 55–101). -/
def arraySection : List Stmt := (script.drop 5).take 10

/-- The statements of the `## Maps` section (source lines 110–124). -/
def mapSection : List Stmt := (script.drop 15).take 7

/-- The statements of the `## Structs` section (source lines 133–151). -/
def structSection : List Stmt := (script.drop 22).take 6

/-- A statement that loads a CSV with `header=True` and `inferSchema=True`. -/
def isCsvLoad : Stmt → Bool
  | .assign _ (.readCsv _ h i) => h && i
  | _ => false

/-- A statement that only displays to the console. -/
def isDisplay : Stmt → Bool
  | .printSchema _ => true
  | .showRows _ _ _ => true
  | .headRows _ _ => true
  | _ => false

/-- The dataframe a display statement shows, if any. -/
def displayTarget : Stmt → Option DF
  | .printSchema d => some d
  | .showRows d _ _ => some d
  | .headRows d _ => some d
  | _ => none

/-- `derivedFrom base d`: `d` is `base` itself or is obtained from it by
`withColumn` / `select` steps only. -/
def derivedFrom (base : DF) : DF → Bool
  | .readCsv p h i => base == .readCsv p h i
  | .withColumn d n c => base == .withColumn d n c || derivedFrom base d
  | .select d cs => base == .select d cs || derivedFrom base d

/-- `d` adds exactly one column to `drivers` and then selects:
`drivers.withColumn(...).select(...)`. -/
def isOneColumnDerivation : DF → Bool
  | .select (.withColumn base _ _) _ => base == drivers
  | _ => false

/-- Shape of one complex-type section: first a binding of `name` to a
one-column derivation of `drivers`, then `printSchema` on that binding,
then only display statements, each showing the binding or a selection
from it. -/
def sectionOk (name : String) : List Stmt → Bool
  | .assign n d :: .printSchema d' :: rest =>
    n == name && d' == d && isOneColumnDerivation d &&
      rest.all fun s =>
        match displayTarget s with
        | some t => derivedFrom d t
        | none => false
  | _ => false

/-! ### CSV reads and environment-variable usage -/

/-- The reads (path, `header`, `inferSchema`) at the leaves of a
dataframe expression. -/
def dfReads : DF → List (StrExpr × Bool × Bool)
  | .readCsv p h i => [(p, h, i)]
  | .withColumn d _ _ => dfReads d
  | .select d _ => dfReads d

/-- The reads a statement's dataframe (if any) is built from. -/
def stmtReads : Stmt → List (StrExpr × Bool × Bool)
  | .assign _ d => dfReads d
  | .printSchema d => dfReads d
  | .showRows d _ _ => dfReads d
  | .headRows d _ => dfReads d
  | .write d _ => dfReads d
  | _ => []

/-- The top-level CSV reads: bindings whose right-hand side is a read. -/
def topLevelReads : List (StrExpr × Bool × Bool) :=
  script.filterMap fun s =>
    match s with
    | .assign _ (.readCsv p h i) => some (p, h, i)
    | _ => none

/-- Environment variables a statement consumes. -/
def stmtEnvVars : Stmt → List EnvVar
  | .getConnection e => strEnvVars e
  | .assign _ d => (dfReads d).map (fun r => strEnvVars r.1) |>.flatten
  | .printSchema d => (dfReads d).map (fun r => strEnvVars r.1) |>.flatten
  | .showRows d _ _ => (dfReads d).map (fun r => strEnvVars r.1) |>.flatten
  | .headRows d _ => (dfReads d).map (fun r => strEnvVars r.1) |>.flatten
  | .write d _ => (dfReads d).map (fun r => strEnvVars r.1) |>.flatten
  | _ => []

/-- Environment variables consumed by a list of statements. -/
def envVarsUsed (l : List Stmt) : List EnvVar :=
  (l.map stmtEnvVars).flatten

/-- The startup phase: session acquisition and data loading (source
lines 40–46). -/
def startupStmts : List Stmt := script.take 5

/-! ### Engine functions invoked -/

/-- The engine functions and accessors applied in a column expression,
by name.  A bare column-name string (`Col.named`) is not a call. -/
def colOps : Col → List String
  | .named _ => []
  | .col _ => ["col"]
  | .lit _ => ["lit"]
  | .array a b => "array" :: (colOps a ++ colOps b)
  | .create_map a b c d => "create_map" :: (colOps a ++ colOps b ++ colOps c ++ colOps d)
  | .struct a b => "struct" :: (colOps a ++ colOps b)
  | .getItem c _ => "getItem" :: colOps c
  | .getField c _ => "getField" :: colOps c
  | .size c => "size" :: colOps c
  | .sort_array c _ => "sort_array" :: colOps c
  | .array_contains c _ => "array_contains" :: colOps c
  | .explode c => "explode" :: colOps c
  | .posexplode c => "posexplode" :: colOps c
  | .to_json c => "to_json" :: colOps c
  | .alias c _ => "alias" :: colOps c

/-- The column functions applied anywhere in a dataframe expression. -/
def dfOps : DF → List String
  | .readCsv _ _ _ => []
  | .withColumn d _ c => dfOps d ++ colOps c
  | .select d cs => dfOps d ++ (cs.map colOps).flatten

/-- The column functions applied in a statement. -/
def stmtOps : Stmt → List String
  | .assign _ d => dfOps d
  | .printSchema d => dfOps d
  | .showRows d _ _ => dfOps d
  | .headRows d _ => dfOps d
  | .write d _ => dfOps d
  | _ => []

/-- Every column-function application occurring in the script. -/
def scriptOps : List String := (script.map stmtOps).flatten

/-- The nine column-transformation primitives named by the spec. -/
def ninePrimitives : List String :=
  ["array", "create_map", "struct", "explode", "posexplode",
   "sort_array", "array_contains", "size", "to_json"]

/-- Column selection and argument-supplying forms: selecting a column
(`col`), literal argument values (`lit`), element and field access, and
naming (`alias`). -/
def selectionForms : List String :=
  ["col", "lit", "getItem", "getField", "alias"]

/-! ### Output effects -/

/-- The externally visible effect of one statement. -/
inductive Effect where
  | silent : Effect
  | console : Effect
  | persist : Effect
deriving DecidableEq, Repr

/-- Effect classification: display statements print to the console,
`write` persists, everything else produces no output artifact. -/
def effectOf : Stmt → Effect
  | .printSchema _ => .console
  | .showRows _ _ _ => .console
  | .headRows _ _ => .console
  | .write _ _ => .persist
  | _ => .silent

/-- Row limit supplied to the display methods that take one:
`df.show(n, t)` and `df.head(n)`. -/
def rowLimitOk : Stmt → Bool
  | .showRows _ n _ => n == 5
  | .headRows _ n => n == 5
  | _ => true

/-! ### Abstract evaluation (data flow) -/

/-- The value of a dataframe expression once the engine has run it,
abstracted over the engine's semantics: the raw content loaded from each
CSV path is an arbitrary value of type `α`, and the transformations are
kept symbolic.  Two runs print the same thing iff they produce equal
`TableVal`s. -/
inductive TableVal (α : Type) where
  | base : α → TableVal α
  | withColumn : TableVal α → String → Col → TableVal α
  | select : TableVal α → List Col → TableVal α
deriving DecidableEq, Repr

/-- Evaluate a dataframe expression given the content `d p` stored at
each CSV path `p`. -/
def evalDF {α : Type} (d : StrExpr → α) : DF → TableVal α
  | .readCsv p _ _ => .base (d p)
  | .withColumn df n c => .withColumn (evalDF d df) n c
  | .select df cs => .select (evalDF d df) cs

/-- What kind of console display a statement performs. -/
inductive DisplayKind where
  | schema : DisplayKind
  | rows : Nat → Bool → DisplayKind
  | heads : Nat → DisplayKind
deriving DecidableEq, Repr

/-- The console output of one statement, if it displays anything:
the display kind together with the displayed dataframe's value. -/
def displayOut {α : Type} (d : StrExpr → α) : Stmt → Option (DisplayKind × TableVal α)
  | .printSchema df => some (.schema, evalDF d df)
  | .showRows df n t => some (.rows n t, evalDF d df)
  | .headRows df n => some (.heads n, evalDF d df)
  | _ => none

/-- The console outputs of a statement list, in order. -/
def outputsOn {α : Type} (d : StrExpr → α) : List Stmt → List (DisplayKind × TableVal α)
  | [] => []
  | s :: rest =>
    match displayOut d s with
    | some o => o :: outputsOn d rest
    | none => outputsOn d rest

/-- Everything the script prints after loading: the ordered console
outputs of its display statements. -/
def displayOutputs {α : Type} (d : StrExpr → α) : List (DisplayKind × TableVal α) :=
  outputsOn d script

/-- The CSV paths a display statement's dataframe is read from. -/
def displayPaths (s : Stmt) : List StrExpr :=
  match displayTarget s with
  | some df => (dfReads df).map (·.1)
  | none => []

/-! ### Fallible execution

The module contains no `try`/`except`, so its execution semantics is:
run the statements in order; if the engine raises at some statement,
nothing after it runs and the exception leaves the module.  `execFrom`
is that semantics for a statement list starting at index `k`,
parametrised by the set `fails` of raising indices; it returns the
statements that completed and the index of the unhandled exception, if
any. -/

/-- Run statements starting at index `k`; stop at the first raising
index. -/
def execFrom (fails : Nat → Bool) : Nat → List Stmt → List Stmt × Option Nat
  | _, [] => ([], none)
  | k, s :: rest =>
    if fails k then ([], some k)
    else
      let r := execFrom fails (k + 1) rest
      (s :: r.1, r.2)

/-- Run the whole script under failure pattern `fails`. -/
def exec (fails : Nat → Bool) : List Stmt × Option Nat :=
  execFrom fails 0 script

/-- The first raising index among `k, k+1, …, k+n-1`, if any. -/
def firstFailAux (fails : Nat → Bool) : Nat → Nat → Option Nat
  | _, 0 => none
  | k, n + 1 => if fails k then some k else firstFailAux fails (k + 1) n

/-- Decompose a `base.withColumn(name, …).select(cols)` dataframe into
its base, the added column's name, and the selected columns. -/
def deriveInfo : DF → Option (DF × String × List Col)
  | .select (.withColumn b n _) cols => some (b, n, cols)
  | _ => none

/-- Failure pattern for concrete executions: exactly index `m` raises. -/
def failOnly (m : Nat) : Nat → Bool := fun n => n == m

/-- Concrete path-content assignment used to exercise the
noninterference theorem: every path holds `0`. -/
def contentsA : StrExpr → Nat := fun _ => 0

/-- Concrete path-content assignment differing from `contentsA` exactly
on the `rides` and `riders` paths. -/
def contentsB : StrExpr → Nat := fun p =>
  if p = ridesPathExpr then 1 else if p = ridersPathExpr then 2 else 0

/-! ### Helper lemmas -/

/-- If `firstFailAux` finds a raising index, it is the least one in range. -/
theorem firstFailAux_spec (fails : Nat → Bool) :
    ∀ (n k i : Nat), firstFailAux fails k n = some i →
      k ≤ i ∧ i < k + n ∧ fails i = true ∧ ∀ j, k ≤ j → j < i → fails j = false := by
  intro n
  induction n with
  | zero =>
    intro k i h
    simp [firstFailAux] at h
  | succ m ih =>
    intro k i h
    simp only [firstFailAux] at h
    by_cases hk : fails k = true
    · rw [if_pos hk] at h
      injection h with h'
      subst h'
      exact ⟨Nat.le_refl _, by omega, hk, fun j hj hji => absurd hji (by omega)⟩
    · rw [if_neg hk] at h
      obtain ⟨h1, h2, h3, h4⟩ := ih (k + 1) i h
      refine ⟨by omega, by omega, h3, ?_⟩
      intro j hj hji
      rcases Nat.lt_or_ge j (k + 1) with hlt | hge
      · have hjk : j = k := by omega
        subst hjk
        exact Bool.eq_false_iff.mpr hk
      · exact h4 j hge hji

/-- If no index in range raises, execution completes and runs every
statement. -/
theorem execFrom_none (fails : Nat → Bool) :
    ∀ (l : List Stmt) (k : Nat), firstFailAux fails k l.length = none →
      execFrom fails k l = (l, none) := by
  intro l
  induction l with
  | nil => intro k _; rfl
  | cons s rest ih =>
    intro k h
    rw [List.length_cons] at h
    simp only [firstFailAux] at h
    by_cases hk : fails k = true
    · rw [if_pos hk] at h; cases h
    · rw [if_neg hk] at h
      simp only [execFrom, if_neg hk, ih (k + 1) h]

/-- If the first raising index in range is `i`, execution runs exactly
the statements before `i` and reports the exception unhandled. -/
theorem execFrom_some (fails : Nat → Bool) :
    ∀ (l : List Stmt) (k i : Nat), firstFailAux fails k l.length = some i →
      execFrom fails k l = (l.take (i - k), some i) := by
  intro l
  induction l with
  | nil => intro k i h; simp [firstFailAux] at h
  | cons s rest ih =>
    intro k i h
    rw [List.length_cons] at h
    simp only [firstFailAux] at h
    by_cases hk : fails k = true
    · rw [if_pos hk] at h
      injection h with h'
      subst h'
      simp [execFrom, if_pos hk]
    · rw [if_neg hk] at h
      obtain ⟨hki, -, -, -⟩ := firstFailAux_spec fails rest.length (k + 1) i h
      have h2 : i - k = (i - (k + 1)) + 1 := by omega
      simp only [execFrom, if_neg hk, ih (k + 1) i h, h2, List.take_succ_cons]

/-- A dataframe's value depends only on the contents stored at the paths
it reads. -/
theorem evalDF_congr {α : Type} (d1 d2 : StrExpr → α) :
    ∀ df : DF, (∀ p ∈ (dfReads df).map (·.1), d1 p = d2 p) →
      evalDF d1 df = evalDF d2 df := by
  intro df
  induction df with
  | readCsv p hh ii =>
    intro hp
    have := hp p (by simp [dfReads])
    simp [evalDF, this]
  | withColumn d n c ihd =>
    intro hp
    simp only [evalDF]
    rw [ihd (fun p hmem => hp p (by simpa [dfReads] using hmem))]
  | select d cs ihd =>
    intro hp
    simp only [evalDF]
    rw [ihd (fun p hmem => hp p (by simpa [dfReads] using hmem))]

/-- A statement's console output depends only on the contents at the
paths its displayed dataframe reads. -/
theorem displayOut_congr {α : Type} (d1 d2 : StrExpr → α) (s : Stmt)
    (h : ∀ p ∈ displayPaths s, d1 p = d2 p) :
    displayOut d1 s = displayOut d2 s := by
  cases s with
  | getConnection e => rfl
  | getSparkSession => rfl
  | assign n df => rfl
  | printSchema df =>
    simp only [displayOut]
    rw [evalDF_congr d1 d2 df (fun p hp => h p (by simpa [displayPaths, displayTarget] using hp))]
  | showRows df n t =>
    simp only [displayOut]
    rw [evalDF_congr d1 d2 df (fun p hp => h p (by simpa [displayPaths, displayTarget] using hp))]
  | headRows df n =>
    simp only [displayOut]
    rw [evalDF_congr d1 d2 df (fun p hp => h p (by simpa [displayPaths, displayTarget] using hp))]
  | write df t => rfl
  | stop => rfl

/-- The outputs of a statement list depend only on the contents at the
paths its display statements read. -/
theorem outputsOn_congr {α : Type} (d1 d2 : StrExpr → α) :
    ∀ l : List Stmt, (∀ s ∈ l, ∀ p ∈ displayPaths s, d1 p = d2 p) →
      outputsOn d1 l = outputsOn d2 l := by
  intro l
  induction l with
  | nil => intro _; rfl
  | cons s rest ih =>
    intro h
    have hs := displayOut_congr d1 d2 s (h s (by simp))
    simp only [outputsOn]
    rw [hs, ih (fun t ht p hp => h t (List.mem_cons_of_mem s ht) p hp)]

/-! ### Claims -/

/-- Claim C1: the script's control flow is, in order: acquire a connection
and Spark session, load three CSV datasets, then one section per
complex-type category (array, map, struct) — each binding one new derived
column, printing the resulting schema, then only printing sample rows of
that derivation — and finally stop the session; the concatenation of these
phases is the whole script, so no step occurs outside this sequence. -/
theorem scriptControlFlow :
    script = connectStmts ++ loadStmts ++ arraySection ++ mapSection ++
      structSection ++ [Stmt.stop] ∧
    connectStmts = [.getConnection (.env .connectionName), .getSparkSession] ∧
    loadStmts.all isCsvLoad = true ∧
    loadStmts.length = 3 ∧
    sectionOk "drivers_array" arraySection = true ∧
    sectionOk "drivers_map" mapSection = true ∧
    sectionOk "drivers_struct" structSection = true :=
  ⟨rfl, rfl, rfl, rfl, rfl, rfl, rfl⟩

/-- Claim C2: the script's top-level reads are exactly three CSV reads —
rides, drivers, riders — each with `header=True` and `inferSchema=True`;
every read leaf anywhere in the script is one of those three; and under
any environment each read path is the configured `S3_ROOT` followed by a
dataset-specific suffix. -/
theorem threeCsvReads :
    topLevelReads = [(ridesPathExpr, true, true), (driversPathExpr, true, true),
      (ridersPathExpr, true, true)] ∧
    ((script.map stmtReads).flatten).all (fun r => topLevelReads.contains r) = true ∧
    (∀ e : Env,
      evalStr e ridesPathExpr = e.s3Root ++ "/duocar/raw/rides/" ∧
      evalStr e driversPathExpr = e.s3Root ++ "/duocar/raw/drivers/" ∧
      evalStr e ridersPathExpr = e.s3Root ++ "/duocar/raw/riders/") :=
  ⟨rfl, by decide, fun _ => ⟨rfl, rfl, rfl⟩⟩

/-- Witness for C2 at a concrete environment. -/
theorem threeCsvReads_witness :
    evalStr ⟨"s3a://bucket", "s3a://bucket/home", "go01-demo"⟩ ridesPathExpr =
      "s3a://bucket" ++ "/duocar/raw/rides/" :=
  (threeCsvReads.2.2 ⟨"s3a://bucket", "s3a://bucket/home", "go01-demo"⟩).1

/-- Claim C3: every `show` call and every `head` call in the script passes
the row count 5 (so every row display is of at most 5 rows); there are 16
`show` calls and 1 `head` call. -/
theorem showHeadRowCounts :
    script.all rowLimitOk = true ∧
    script.countP (fun s => match s with | .showRows _ _ _ => true | _ => false) = 16 ∧
    script.countP (fun s => match s with | .headRows _ _ => true | _ => false) = 1 :=
  ⟨rfl, rfl, rfl⟩

/-- Claim C4: the script has no error handling: under any failure pattern,
if no statement raises the whole script runs; and if some statement
raises, exactly the statements before the first raising one run, the
raising statement is the engine's failure, and the exception is reported
unhandled — no statement after it runs, the failing statement is never
retried, and no recovery action is taken. -/
theorem noErrorHandling (fails : Nat → Bool) :
    (firstFailAux fails 0 script.length = none → exec fails = (script, none)) ∧
    (∀ i, firstFailAux fails 0 script.length = some i →
      exec fails = (script.take i, some i) ∧ fails i = true ∧
        ∀ j, j < i → fails j = false) := by
  constructor
  · intro h
    exact execFrom_none fails script 0 h
  · intro i h
    obtain ⟨-, -, h3, h4⟩ := firstFailAux_spec fails script.length 0 i h
    refine ⟨?_, h3, fun j hj => h4 j (Nat.zero_le _) hj⟩
    have he := execFrom_some fails script 0 i h
    simpa [exec] using he

/-- Witness for C4: with no failures the whole script runs; when
statement 3 raises, exactly statements 0–2 run and index 3 is reported
as the unhandled exception. -/
theorem noErrorHandling_witness :
    exec (fun _ => false) = (script, none) ∧
    exec (failOnly 3) = (script.take 3, some 3) :=
  ⟨(noErrorHandling (fun _ => false)).1 rfl,
   ((noErrorHandling (failOnly 3)).2 3 rfl).1⟩

/-- Claim C5: `spark.stop()` is the final statement of the script, occurs
nowhere else, runs when nothing raises, and is not protected by any
cleanup construct: whenever any statement raises, the executed prefix
does not contain `stop`. -/
theorem stopOnlyOnSuccessPath :
    script.getLast? = some Stmt.stop ∧
    Stmt.stop ∉ script.dropLast ∧
    exec (fun _ => false) = (script, none) ∧
    (∀ (fails : Nat → Bool) (i : Nat), (exec fails).2 = some i →
      Stmt.stop ∉ (exec fails).1) := by
  refine ⟨rfl, by decide, rfl, ?_⟩
  intro fails i h
  cases hc : firstFailAux fails 0 script.length with
  | none =>
    have he : exec fails = (script, none) := execFrom_none fails script 0 hc
    rw [he] at h
    simp at h
  | some j =>
    obtain ⟨-, hj, -, -⟩ := firstFailAux_spec fails script.length 0 j hc
    have hlen : script.length = 29 := rfl
    have he : exec fails = (script.take j, some j) := by
      have := execFrom_some fails script 0 j hc
      simpa [exec] using this
    rw [he]
    intro hmem
    have htk : (script.take 28).take j = script.take j := by
      rw [List.take_take, Nat.min_eq_left (by omega)]
    rw [← htk] at hmem
    have hmem28 : Stmt.stop ∈ script.take 28 := List.take_subset _ _ hmem
    exact absurd hmem28 (by decide)

/-- Witness for C5: when statement 7 raises, the executed prefix does not
contain `stop`. -/
theorem stopOnlyOnSuccessPath_witness :
    Stmt.stop ∉ (exec (failOnly 7)).1 :=
  stopOnlyOnSuccessPath.2.2.2 (failOnly 7) 7 rfl

/-- Claim C6: every engine function applied to columns in the script is
one of the nine listed transformation primitives or a selection/argument
form (`col`, `lit`, element access, field access, `alias`), and each of
the nine primitives — `array`, `create_map`, `struct`, `explode`,
`posexplode`, `sort_array`, `array_contains`, `size`, `to_json` — is
applied at least once. -/
theorem enginePrimitivesOnly :
    ninePrimitives.all (fun f => scriptOps.contains f) = true ∧
    scriptOps.all (fun o => ninePrimitives.contains o || selectionForms.contains o) = true := by
  constructor <;> decide

/-- Claim C7: no statement of the script persists anything; the
statements that produce output are exactly the display statements
(schema prints and row displays), whose output goes to the console. -/
theorem noPersistedOutput :
    script.countP (fun s => effectOf s == Effect.persist) = 0 ∧
    script.all (fun s => (effectOf s == Effect.console) == isDisplay s) = true ∧
    script.countP (fun s => effectOf s == Effect.console) = 20 :=
  ⟨rfl, rfl, rfl⟩

/-- Counterexample to claim C8 as stated: the claim says each of
`S3_ROOT`, `S3_HOME`, `CONNECTION_NAME` is used by the startup phase, but
`S3_HOME`, though imported on source line 38, is consumed by no statement
of the startup phase — nor by any statement of the script at all. -/
theorem s3HomeNeverUsed :
    EnvVar.s3Home ∈ importedEnvVars ∧
    EnvVar.s3Home ∉ envVarsUsed startupStmts ∧
    EnvVar.s3Home ∉ envVarsUsed script := by
  refine ⟨by decide, by decide, by decide⟩

/-- Claim C8 (amended): of the three names imported from `env`,
`S3_ROOT` and `CONNECTION_NAME` are consumed by the startup phase
(session acquisition and CSV loading) and are the only environment
variables any statement consumes; `S3_HOME` is imported but never used. -/
theorem envVarConsumption :
    EnvVar.connectionName ∈ envVarsUsed startupStmts ∧
    EnvVar.s3Root ∈ envVarsUsed startupStmts ∧
    (envVarsUsed script).all
      (fun v => v == EnvVar.s3Root || v == EnvVar.connectionName) = true ∧
    EnvVar.s3Home ∈ importedEnvVars ∧
    EnvVar.s3Home ∉ envVarsUsed script := by
  refine ⟨by decide, by decide, by decide, by decide, by decide⟩

/-- Claim C9: everything the script displays is derived solely from the
drivers dataset: any two path-content assignments that agree outside the
rides and riders paths produce identical display outputs. -/
theorem ridesRidersNoninterference {α : Type} (d1 d2 : StrExpr → α)
    (h : ∀ p : StrExpr, p ≠ ridesPathExpr → p ≠ ridersPathExpr → d1 p = d2 p) :
    displayOutputs d1 = displayOutputs d2 := by
  have hall : script.all
      (fun s => (displayPaths s).all (fun p => p == driversPathExpr)) = true := by
    decide
  apply outputsOn_congr
  intro s hs p hp
  have h1 := (List.all_eq_true.mp hall) s hs
  have h2 := (List.all_eq_true.mp h1) p hp
  have hpd : p = driversPathExpr := by simpa using h2
  subst hpd
  exact h driversPathExpr (by decide) (by decide)

/-- Witness for C9: two concrete content assignments that differ exactly
on the rides and riders paths yield the same display outputs. -/
theorem ridesRidersNoninterference_witness :
    (∀ p : StrExpr, p ≠ ridesPathExpr → p ≠ ridersPathExpr →
      contentsA p = contentsB p) ∧
    displayOutputs contentsA = displayOutputs contentsB := by
  have h : ∀ p : StrExpr, p ≠ ridesPathExpr → p ≠ ridersPathExpr →
      contentsA p = contentsB p := by
    intro p h1 h2
    simp [contentsA, contentsB, h1, h2]
  exact ⟨h, ridesRidersNoninterference contentsA contentsB h⟩

/-- Claim C10: each derived dataframe is `drivers` itself extended by one
new column and restricted to exactly three columns — `vehicle_make`,
`vehicle_model`, and the new column; the three derivations all start from
the unchanged `drivers` value, which is bound exactly once in the script,
and each derivation is a new dataframe distinct from `drivers`. -/
theorem derivedFramesShape :
    deriveInfo drivers_array = some (drivers, "vehicle_array",
      [.named "vehicle_make", .named "vehicle_model", .named "vehicle_array"]) ∧
    deriveInfo drivers_map = some (drivers, "vehicle_map",
      [.named "vehicle_make", .named "vehicle_model", .named "vehicle_map"]) ∧
    deriveInfo drivers_struct = some (drivers, "vehicle_struct",
      [.named "vehicle_make", .named "vehicle_model", .named "vehicle_struct"]) ∧
    script.countP (fun s => match s with | .assign n _ => n == "drivers" | _ => false) = 1 ∧
    drivers_array ≠ drivers ∧ drivers_map ≠ drivers ∧ drivers_struct ≠ drivers :=
  ⟨rfl, rfl, rfl, rfl, by decide, by decide, by decide⟩
